import Mathlib

/-!
Shallow embedding of the ThingBase ESP32 firmware core
(src/firmware/esp32: storage.cpp, claim.cpp, provisioning.cpp, main.cpp)
and proofs about its credential store, claim client, provisioning
endpoint, lifecycle boot sequence, broker address parsing, reconnect
throttling and command channel.

Modelling conventions:
* `Preferences` (one NVS namespace "thingbase") is a record `Prefs` with
  one field per key the firmware uses; `getString` defaults to `""` and
  `getBool` to `false`, exactly as the calls in the source pass them.
* ArduinoJson documents are the inductive `Json`; `doc["k"]` is
  `jsonGet`, conversion to `const char*` is `jsonLookupCStr` (null unless
  the value is a string), `variant | dflt` is `jsonStrOr` / `jsonBoolOr`,
  `as<bool>` is `jsonAsBool` and `as<String>` is `jsonAsString`.
* C strings copied by `strncpy(dst, src, sizeof dst - 1)` into the fixed
  char arrays of `WifiCredentials` / `MqttCredentials` are modelled by
  `truncN (size - 1)`.
* Machine integers: `millis()` timestamps are `Nat`; the 32-bit unsigned
  subtraction `now - lastReconnectAttempt` is `(now - last) % 2^32`,
  which agrees with the hardware because under monotone real time both
  registers are the true values reduced mod 2^32.
* External collaborators (WiFi join, the HTTP transport, `deserializeJson`,
  `HTTPClient::errorToString`) enter as explicit parameters or as fields of
  `HttpResponse`; the firmware logic itself is translated line by line.
-/

/-- JSON documents as ArduinoJson sees them (numbers restricted to the
integers, which is all the modelled code paths touch). -/
inductive Json where
  | null : Json
  | boolean : Bool → Json
  | num : Int → Json
  | str : String → Json
  | arr : List Json → Json
  | obj : List (String × Json) → Json

/-- Member access `doc["k"]` on a JsonVariant: the first binding of the key
in an object, `null` on anything else (ArduinoJson yields a null variant). -/
def jsonGet (j : Json) (key : String) : Json :=
  match j with
  | .obj fields =>
    match fields.find? (fun kv => kv.1 = key) with
    | some kv => kv.2
    | none => .null
  | _ => .null

/-- Conversion of a JsonVariant to `const char*`: the string when the value
is a string, the null pointer (`none`) otherwise. -/
def jsonLookupCStr (j : Json) (key : String) : Option String :=
  match jsonGet j key with
  | .str s => some s
  | _ => none

/-- ArduinoJson `variant | defaultString`: the value when it is a string,
the default otherwise (missing, null or wrongly typed). -/
def jsonStrOr (j : Json) (dflt : String) : String :=
  match j with
  | .str s => s
  | _ => dflt

/-- ArduinoJson `variant | defaultBool`: the value when it is a boolean,
the default otherwise. -/
def jsonBoolOr (j : Json) (dflt : Bool) : Bool :=
  match j with
  | .boolean b => b
  | _ => dflt

/-- ArduinoJson `as<bool>()`: booleans stand for themselves, numbers are
true iff nonzero, everything else (null, strings, containers) is false in
the cases the firmware exercises. -/
def jsonAsBool (j : Json) : Bool :=
  match j with
  | .boolean b => b
  | .num n => n ≠ 0
  | _ => false

/-- ArduinoJson `as<String>()`: strings stand for themselves and scalar
values are converted to their textual form (in particular a null variant
becomes the string "null"). Containers are not exercised by any theorem
below and are modelled coarsely as the empty string. -/
def jsonAsString (j : Json) : String :=
  match j with
  | .str s => s
  | .null => "null"
  | .boolean b => if b then "true" else "false"
  | .num n => toString n
  | _ => ""

/-- Copy through a fixed `char[n+1]` buffer: `strncpy(dst, src, n)` keeps at
most the first `n` characters. -/
def truncN (n : Nat) (s : String) : String := String.mk (s.data.take n)

/-- Arduino `String::startsWith`, stated on the character lists. -/
def strStartsWith (s p : String) : Bool := p.data.isPrefixOf s.data

/-- Arduino `String::substring(n)` (drop the first `n` characters). -/
def strDrop (s : String) (n : Nat) : String := String.mk (s.data.drop n)

/-- Arduino `String::substring(0, n)` (keep the first `n` characters). -/
def strTake (s : String) (n : Nat) : String := String.mk (s.data.take n)

/-- One NVS namespace ("thingbase") of the Preferences library, restricted
to the keys the firmware reads and writes.  String keys default to `""`,
the boolean key to `false`, matching the defaults passed at every call. -/
structure Prefs where
  wifi_ssid : String := ""
  wifi_pass : String := ""
  mqtt_broker : String := ""
  mqtt_client : String := ""
  mqtt_user : String := ""
  mqtt_pass : String := ""
  topic_tele : String := ""
  topic_cmd : String := ""
  topic_ack : String := ""
  topic_status : String := ""
  tenant_id : String := ""
  device_id : String := ""
  claim_token : String := ""
  claim_url : String := ""
  provisioned : Bool := false
deriving DecidableEq

/-- The store of a fresh device: no key present, every read defaults. -/
def prefsDefault : Prefs := {}

/-- storage.h `WifiCredentials`: `char ssid[64]; char password[64]; bool isValid;`. -/
structure WifiCredentials where
  ssid : String
  password : String
  isValid : Bool
deriving DecidableEq

/-- storage.h `MqttCredentials` with its fixed buffer sizes
(broker 128, clientId 64, username 64, password 128, four topics 128,
tenantId 64, deviceId 64). -/
structure MqttCredentials where
  broker : String
  clientId : String
  username : String
  password : String
  topicTelemetry : String
  topicCommands : String
  topicAck : String
  topicStatus : String
  tenantId : String
  deviceId : String
  isValid : Bool
deriving DecidableEq

/-- An all-empty, invalid broker credential record. -/
def mqttInvalid : MqttCredentials :=
  { broker := "", clientId := "", username := "", password := ""
    topicTelemetry := "", topicCommands := "", topicAck := "", topicStatus := ""
    tenantId := "", deviceId := "", isValid := false }

/-- storage.cpp `storageClear`: `prefs.clear()` erases every key of the
namespace, including the provisioned flag and the pending-claim keys. -/
def storageClear (_ : Prefs) : Prefs := prefsDefault

/-- storage.cpp `storageIsProvisioned`: `prefs.getBool("provisioned", false)`. -/
def storageIsProvisioned (st : Prefs) : Bool := st.provisioned

/-- storage.cpp `storageSaveWifi`: writes the two WiFi keys. -/
def storageSaveWifi (st : Prefs) (ssid password : String) : Prefs :=
  { st with wifi_ssid := ssid, wifi_pass := password }

/-- storage.cpp `storageLoadWifi`: valid iff the stored ssid is non-empty;
on a valid load both fields are copied through the 64-byte buffers
(`strncpy(..., sizeof - 1)`, so at most 63 characters survive). -/
def storageLoadWifi (st : Prefs) : WifiCredentials :=
  if st.wifi_ssid ≠ "" then
    { ssid := truncN 63 st.wifi_ssid, password := truncN 63 st.wifi_pass
      isValid := true }
  else
    { ssid := "", password := "", isValid := false }

/-- storage.cpp `storageSaveMqtt`: writes the ten broker keys and sets the
provisioned flag to true. -/
def storageSaveMqtt (st : Prefs)
    (broker clientId username password
     topicTelemetry topicCommands topicAck topicStatus
     tenantId deviceId : String) : Prefs :=
  { st with
    mqtt_broker := broker, mqtt_client := clientId
    mqtt_user := username, mqtt_pass := password
    topic_tele := topicTelemetry, topic_cmd := topicCommands
    topic_ack := topicAck, topic_status := topicStatus
    tenant_id := tenantId, device_id := deviceId
    provisioned := true }

/-- storage.cpp `storageLoadMqtt`: valid iff the stored broker is non-empty;
on a valid load every field is copied through its fixed buffer (127
characters for broker / password / topics, 63 for the rest). -/
def storageLoadMqtt (st : Prefs) : MqttCredentials :=
  if st.mqtt_broker ≠ "" then
    { broker := truncN 127 st.mqtt_broker
      clientId := truncN 63 st.mqtt_client
      username := truncN 63 st.mqtt_user
      password := truncN 127 st.mqtt_pass
      topicTelemetry := truncN 127 st.topic_tele
      topicCommands := truncN 127 st.topic_cmd
      topicAck := truncN 127 st.topic_ack
      topicStatus := truncN 127 st.topic_status
      tenantId := truncN 63 st.tenant_id
      deviceId := truncN 63 st.device_id
      isValid := true }
  else
    mqttInvalid

/-- claim.cpp lines 19-23: the claim endpoint URL.  `url.endsWith("/")` on
the single-character suffix "/" is exactly a last-character test. -/
def claimUrl (serverUrl : String) : String :=
  if serverUrl.data.getLast? = some '/' then serverUrl ++ "devices/claim"
  else serverUrl ++ "/devices/claim"

/-- Modelled from the spec words "normalized to always contain exactly one
separating slash": the serverUrl with all trailing slashes removed, then
exactly one slash, then the path.  Used only to compare `claimUrl` against
the specified normalization. -/
def specOneSlashUrl (serverUrl : String) : String :=
  String.mk ((serverUrl.data.reverse.dropWhile (fun c => c = '/')).reverse)
    ++ "/devices/claim"

/-- Whether a string ends in two (or more) slashes — the inputs on which
`claimUrl` keeps more than one separating slash. -/
def endsTwoSlashes (s : String) : Bool :=
  match s.data.reverse with
  | '/' :: '/' :: _ => true
  | _ => false

/-- claim.h `ClaimResult`. -/
structure ClaimResult where
  success : Bool
  error : String
  deviceId : String
  tenantId : String
  mqtt : MqttCredentials
deriving DecidableEq

/-- Outcome of the HTTP POST as the surrounding library hands it to
claim.cpp: the status code returned by `http.POST` (non-positive values are
transport errors), the `deserializeJson` outcome on the response body
(`Except` error carries `error.c_str()`), and the description
`http.errorToString` would give for a transport error. -/
structure HttpResponse where
  code : Int
  body : Except String Json
  transportError : String

/-- claim.cpp lines 51-117: how `claimDevice` turns the HTTP outcome into a
`ClaimResult`.  On 200/201 with `success:true` it copies the credential
fields (each through its fixed buffer) and marks the record valid; with
`success:false` the error is `responseDoc["error"].as<String>()`; a parse
failure, a non-2xx code and a transport error populate the other error
messages. -/
def claimProcessResponse (resp : HttpResponse) : ClaimResult :=
  let base : ClaimResult :=
    { success := false, error := "", deviceId := "", tenantId := ""
      mqtt := mqttInvalid }
  if resp.code = 200 ∨ resp.code = 201 then
    match resp.body with
    | .error e => { base with error := "Failed to parse response: " ++ e }
    | .ok doc =>
      if jsonAsBool (jsonGet doc "success") = true then
        let data := jsonGet doc "data"
        let deviceId := jsonAsString (jsonGet data "deviceId")
        let tenantId := jsonAsString (jsonGet data "tenantId")
        let mqtt := jsonGet data "mqtt"
        let topics := jsonGet mqtt "topics"
        { success := true, error := ""
          deviceId := deviceId, tenantId := tenantId
          mqtt :=
            { broker := truncN 127 (jsonStrOr (jsonGet mqtt "broker") "")
              clientId := truncN 63 (jsonStrOr (jsonGet mqtt "clientId") "")
              username := truncN 63 (jsonStrOr (jsonGet mqtt "username") "")
              password := truncN 127 (jsonStrOr (jsonGet mqtt "password") "")
              topicTelemetry := truncN 127 (jsonStrOr (jsonGet topics "telemetry") "")
              topicCommands := truncN 127 (jsonStrOr (jsonGet topics "commands") "")
              topicAck := truncN 127 (jsonStrOr (jsonGet topics "ack") "")
              topicStatus := truncN 127 (jsonStrOr (jsonGet topics "status") "")
              tenantId := truncN 63 tenantId
              deviceId := truncN 63 deviceId
              isValid := true } }
      else
        { base with error := jsonAsString (jsonGet doc "error") }
  else if resp.code > 0 then
    match resp.body with
    | .ok doc => { base with error := jsonAsString (jsonGet doc "message") }
    | .error _ => { base with error := "HTTP Error: " ++ toString resp.code }
  else
    { base with error := "Connection failed: " ++ resp.transportError }

/-- Arduino `String::toInt` (atol): skip leading whitespace, an optional
sign, then leading decimal digits; 0 when no digit follows. -/
def parseDigits : List Char → Nat → Nat
  | [], acc => acc
  | c :: cs, acc =>
    if c.isDigit then parseDigits cs (10 * acc + (c.toNat - 48)) else acc

/-- Arduino `String::toInt` on the whole string. -/
def stringToInt (s : String) : Int :=
  match s.data.dropWhile Char.isWhitespace with
  | '-' :: cs => -(parseDigits cs 0 : Int)
  | '+' :: cs => (parseDigits cs 0 : Int)
  | cs => (parseDigits cs 0 : Int)

/-- The transport selection `connectToMQTT` arrives at. -/
structure BrokerTarget where
  useTLS : Bool
  host : String
  port : Int
deriving DecidableEq

/-- main.cpp lines 244-267: strip a recognized scheme (`mqtt://` port 1883
unencrypted, `mqtts://` port 8883 TLS, no scheme unencrypted port 1883),
then split on the first colon at a positive index into host and an explicit
port parsed with `toInt`. -/
def parseBrokerAddress (broker : String) : BrokerTarget :=
  let stripped :=
    if strStartsWith broker "mqtt://" then (strDrop broker 7, (1883 : Int), false)
    else if strStartsWith broker "mqtts://" then (strDrop broker 8, (8883 : Int), true)
    else (broker, (1883 : Int), false)
  let url := stripped.1
  let dfltPort := stripped.2.1
  let tls := stripped.2.2
  match url.data.findIdx? (fun c => c = ':') with
  | some i =>
    if i > 0 then
      { useTLS := tls, host := strTake url i, port := stringToInt (strDrop url (i + 1)) }
    else
      { useTLS := tls, host := url, port := dfltPort }
  | none => { useTLS := tls, host := url, port := dfltPort }

/-- main.cpp line 239 + 244-267: `connectToMQTT` returns without a
connection attempt when the credential record is invalid, otherwise it
targets the parsed broker address. -/
def connectTarget (creds : MqttCredentials) : Option BrokerTarget :=
  if creds.isValid then some (parseBrokerAddress creds.broker) else none

/-- provisioning.cpp lines 136-173 plus the background task lines 98-134:
the `/provision` handler.  A body that fails to parse, or in which any of
ssid / password / claimToken / serverUrl is not a string (absent fields
convert to a null `const char*`), answers 400 and writes nothing; otherwise
it answers 200 and the background task persists the WiFi credentials and
the pending-claim keys before restarting.  The returned store is the store
as the restart sees it. -/
def handleProvision (body : Except String Json) (st : Prefs) : Nat × Prefs :=
  match body with
  | .error _ => (400, st)
  | .ok doc =>
    match jsonLookupCStr doc "ssid", jsonLookupCStr doc "password",
          jsonLookupCStr doc "claimToken", jsonLookupCStr doc "serverUrl" with
    | some ssid, some password, some claimToken, some serverUrl =>
      let st1 := storageSaveWifi st ssid password
      let st2 := { st1 with claim_token := claimToken, claim_url := serverUrl }
      (200, st2)
    | _, _, _, _ => (400, st)

/-- Where `setup()` leaves the lifecycle. -/
inductive BootPhase where
  | connectingBroker : BootPhase
  | joiningNetwork : BootPhase
  | provisioning : BootPhase
deriving DecidableEq

/-- main.cpp lines 44-147: the boot sequence of `setup()`.  The WiFi join
outcome and the claim exchange outcome are the two external events of this
code path and enter as parameters.  With a pending claim token: an invalid
stored WiFi record falls straight through to provisioning (the pending-claim
keys are not touched); a failed join clears the whole store; a failed claim
clears the whole store and removes the pending-claim keys; a successful
claim persists the returned broker credentials and removes the pending-claim
keys.  Without a pending token the provisioned flag and the two stored
records choose between joining and provisioning. -/
def setupBoot (st : Prefs) (wifiJoins : Bool) (claimRes : ClaimResult) :
    Prefs × BootPhase :=
  if st.claim_token ≠ "" then
    let wifiCreds := storageLoadWifi st
    if wifiCreds.isValid then
      if wifiJoins then
        if claimRes.success then
          let st1 := storageSaveMqtt st claimRes.mqtt.broker claimRes.mqtt.clientId
            claimRes.mqtt.username claimRes.mqtt.password
            claimRes.mqtt.topicTelemetry claimRes.mqtt.topicCommands
            claimRes.mqtt.topicAck claimRes.mqtt.topicStatus
            claimRes.mqtt.tenantId claimRes.mqtt.deviceId
          ({ st1 with claim_token := "", claim_url := "" }, .connectingBroker)
        else
          let st1 := storageClear st
          ({ st1 with claim_token := "", claim_url := "" }, .provisioning)
      else
        (storageClear st, .provisioning)
    else
      (st, .provisioning)
  else
    if storageIsProvisioned st then
      if (storageLoadWifi st).isValid ∧ (storageLoadMqtt st).isValid then
        (st, .joiningNetwork)
      else
        (st, .provisioning)
    else
      (st, .provisioning)

/-- A 200 response with success:false and a non-empty structured error. -/
def respDenied : HttpResponse :=
  { code := 200,
    body := .ok (.obj [("success", .boolean false), ("error", .str "bad token")]),
    transportError := "" }

/-- A 200 response with success:false and an empty structured error. -/
def respEmptyError : HttpResponse :=
  { code := 200,
    body := .ok (.obj [("success", .boolean false), ("error", .str "")]),
    transportError := "" }

/-- A 200 success response carrying a broker address. -/
def respWithBroker : HttpResponse :=
  { code := 200,
    body := .ok (.obj [("success", .boolean true),
      ("data", .obj [("mqtt", .obj [("broker", .str "mqtt://h")])])]),
    transportError := "" }

/-- A 200 success response with no broker field at all. -/
def respNoBroker : HttpResponse :=
  { code := 200,
    body := .ok (.obj [("success", .boolean true)]),
    transportError := "" }

/-- A toggle-led command whose params carry `state = true`. -/
def cmdToggleOn : Json :=
  .obj [("action", .str "toggle-led"), ("correlationId", .str "c1"),
    ("params", .obj [("state", .boolean true)])]

/-- Store fragment shared by the C1 scenarios: a pending claim token and
URL as the provisioning background task leaves them before the reboot. -/
def p0C1 : Prefs :=
  { prefsDefault with claim_token := "tok", claim_url := "https://srv" }

/-- A successful claim outcome used by the C1 scenarios. -/
def resC1 : ClaimResult :=
  { success := true, error := "", deviceId := "d", tenantId := "t",
    mqtt := { mqttInvalid with broker := "mqtt://h", isValid := true } }

/-- config.h: `MQTT_RECONNECT_DELAY_MS` is 5000. -/
def MQTT_RECONNECT_DELAY_MS : Nat := 5000

/-- One iteration of `loop()` as far as the broker-reconnect decision is
concerned: the tick time and the three conditions `loop` branches on. -/
structure LoopTick where
  now : Nat
  provisioningActive : Bool
  wifiConnected : Bool
  mqttConnected : Bool

/-- main.cpp lines 149-174: the times at which `loop()` calls
`connectToMQTT`, threading the `lastReconnectAttempt` register through the
tick sequence.  A tick in provisioning mode or with WiFi down returns
early; with the broker link down the attempt fires only when the 32-bit
difference `now - lastReconnectAttempt` exceeds the cooldown, and then the
register is set to `now`. -/
def loopReconnects : Nat → List LoopTick → List Nat
  | _, [] => []
  | last, t :: ts =>
    if t.provisioningActive then loopReconnects last ts
    else if !t.wifiConnected then loopReconnects last ts
    else if !t.mqttConnected then
      if (t.now - last) % 4294967296 > MQTT_RECONNECT_DELAY_MS then
        t.now :: loopReconnects t.now ts
      else
        loopReconnects last ts
    else
      loopReconnects last ts

/-- The acknowledgement document `handleCommand` publishes on the ack
topic: `{correlationId, status, error?, state:{led}, timestamp}`. -/
structure Ack where
  correlationId : Option String
  status : String
  error : Option String
  led : Bool
  timestamp : String
deriving DecidableEq

/-- main.cpp lines 388-396: the `set_state` iteration over `params` — every
pair with key "led" drives the LED GPIO with `kv.value().as<bool>()`;
other keys are ignored. -/
def applySetState (params : Json) (led : Bool) : Bool :=
  match params with
  | .obj fields => fields.foldl (fun l kv => if kv.1 = "led" then jsonAsBool kv.2 else l) led
  | _ => led

/-- main.cpp lines 378-426: `handleCommand` on a parsed command document and
the current LED level; returns the LED level after dispatch and the
acknowledgement built from `correlationId`, the dispatch outcome and a
read-back of the LED GPIO. -/
def handleCommand (command : Json) (led : Bool) : Bool × Ack :=
  let action := jsonLookupCStr command "action"
  let correlationId := jsonLookupCStr command "correlationId"
  let params := jsonGet command "params"
  let dispatched : Bool × String × Bool :=
    if action = some "set_state" then
      (true, "", applySetState params led)
    else if action = some "toggle-led" then
      (true, "", jsonBoolOr (jsonGet params "state") false)
    else
      (true, "Unknown command", led)
  let success := dispatched.1
  let errorMsg := dispatched.2.1
  let ledOut := dispatched.2.2
  (ledOut,
    { correlationId := correlationId
      status := if success then "success" else "error"
      error := if success = false ∧ errorMsg ≠ "" then some errorMsg else none
      led := ledOut
      timestamp := "2024-01-01T00:00:00Z" })

/-- main.cpp lines 323-340: the subscription callback assembles the payload,
runs `deserializeJson` (the external parser enters as a parameter) and
returns without dispatching when parsing fails; otherwise it dispatches the
document to `handleCommand`, whose acknowledgement is the only publish. -/
def mqttCallback (deserialize : String → Except String Json)
    (payload : String) (led : Bool) : Bool × Option Ack :=
  match deserialize payload with
  | .error _ => (led, none)
  | .ok doc =>
    let out := handleCommand doc led
    (out.1, some out.2)

/-! Theorems.  Each claim of the specification is settled by one theorem
below; counterexamples evaluate the embedded code at explicit inputs. -/

theorem truncN_of_length_le {n : Nat} {s : String} (h : s.length ≤ n) :
    truncN n s = s := by
  cases s with
  | mk data =>
    simp only [String.length] at h
    exact congrArg String.mk (List.take_of_length_le h)

theorem truncN_ne_empty {n : Nat} {s : String} (hn : 0 < n) (hs : s ≠ "") :
    truncN n s ≠ "" := by
  cases s with
  | mk data =>
    cases data with
    | nil => exact absurd rfl hs
    | cons c cs =>
      cases n with
      | zero => exact absurd hn (by simp)
      | succ m =>
        intro h
        have h2 := congrArg String.data h
        simp [truncN] at h2

/-- C3 (amended): a load is valid iff the stored primary key (ssid, broker
address) is non-empty, and save followed by load returns every field
exactly provided each field fits its fixed in-memory buffer (at most 63
characters for ssid, WiFi password, clientId, username, tenantId and
deviceId; at most 127 for broker, broker password and the four topics).
Fields longer than the buffer come back truncated, which is what the
counterexample exhibits. -/
theorem claim_C3_store_roundtrip :
    (∀ st : Prefs,
      ((storageLoadWifi st).isValid = true ↔ st.wifi_ssid ≠ "") ∧
      ((storageLoadMqtt st).isValid = true ↔ st.mqtt_broker ≠ "")) ∧
    (∀ (st : Prefs) (ssid pass : String),
      ssid ≠ "" → ssid.length ≤ 63 → pass.length ≤ 63 →
      storageLoadWifi (storageSaveWifi st ssid pass) =
        { ssid := ssid, password := pass, isValid := true }) ∧
    (∀ (st : Prefs) (b c u p t1 t2 t3 t4 tn dv : String),
      b ≠ "" → b.length ≤ 127 → c.length ≤ 63 → u.length ≤ 63 →
      p.length ≤ 127 → t1.length ≤ 127 → t2.length ≤ 127 →
      t3.length ≤ 127 → t4.length ≤ 127 → tn.length ≤ 63 → dv.length ≤ 63 →
      storageLoadMqtt (storageSaveMqtt st b c u p t1 t2 t3 t4 tn dv) =
        { broker := b, clientId := c, username := u, password := p
          topicTelemetry := t1, topicCommands := t2, topicAck := t3
          topicStatus := t4, tenantId := tn, deviceId := dv, isValid := true }) := by
  refine ⟨?_, ?_, ?_⟩
  · intro st
    constructor
    · by_cases h : st.wifi_ssid = "" <;> simp [storageLoadWifi, h]
    · by_cases h : st.mqtt_broker = "" <;> simp [storageLoadMqtt, mqttInvalid, h]
  · intro st ssid pass hne h1 h2
    simp [storageSaveWifi, storageLoadWifi, hne,
      truncN_of_length_le h1, truncN_of_length_le h2]
  · intro st b c u p t1 t2 t3 t4 tn dv hne hb hc hu hp h1 h2 h3 h4 htn hdv
    simp [storageSaveMqtt, storageLoadMqtt, hne,
      truncN_of_length_le hb, truncN_of_length_le hc, truncN_of_length_le hu,
      truncN_of_length_le hp, truncN_of_length_le h1, truncN_of_length_le h2,
      truncN_of_length_le h3, truncN_of_length_le h4, truncN_of_length_le htn,
      truncN_of_length_le hdv]

/-- C3 witness: the round trip evaluated at a concrete store and record. -/
theorem claim_C3_witness :
    ("net" : String) ≠ "" ∧
    storageLoadWifi (storageSaveWifi prefsDefault "net" "pw") =
      { ssid := "net", password := "pw", isValid := true } :=
  ⟨by decide,
   claim_C3_store_roundtrip.2.1 prefsDefault "net" "pw"
     (by decide) (by decide) (by decide)⟩

/-- C3 counterexample: a 64-character ssid is saved in full but loaded back
through the 64-byte `char ssid[64]` buffer (`strncpy(..., 63)`), so the
round trip does not return the saved field exactly. -/
theorem claim_C3_counterexample :
    String.mk (List.replicate 64 'a') ≠ "" ∧
    (storageLoadWifi
        (storageSaveWifi prefsDefault (String.mk (List.replicate 64 'a')) "pw")).ssid
      ≠ String.mk (List.replicate 64 'a') := by
  constructor
  · decide
  · decide

/-- C1 (amended): when a pending claim token is present at boot AND the
stored WiFi record is valid, `setup()` always leaves the store without the
pending-claim keys — a failed join clears them via `storageClear`, a failed
claim clears the store and removes them, a successful claim removes them —
and a successful claim additionally leaves `isProvisioned()` true.  The
counterexample shows the WiFi-validity qualification is necessary: with an
invalid stored WiFi record the boot sequence falls through to provisioning
with the pending-claim keys still in the store. -/
theorem claim_C1_pending_claim_consumed :
    ∀ (st : Prefs) (wifiJoins : Bool) (res : ClaimResult),
      st.claim_token ≠ "" →
      (storageLoadWifi st).isValid = true →
      ((setupBoot st wifiJoins res).1.claim_token = "" ∧
       (setupBoot st wifiJoins res).1.claim_url = "") ∧
      (wifiJoins = true → res.success = true →
        storageIsProvisioned (setupBoot st wifiJoins res).1 = true) := by
  intro st wifiJoins res htok hvalid
  cases wifiJoins with
  | false =>
    simp [setupBoot, htok, hvalid, storageClear, prefsDefault, storageIsProvisioned]
  | true =>
    cases hs : res.success with
    | false =>
      simp [setupBoot, htok, hvalid, hs, storageClear, prefsDefault,
        storageIsProvisioned]
    | true =>
      simp [setupBoot, htok, hvalid, hs, storageSaveMqtt, storageIsProvisioned]

/-- C1 witness: the amended theorem evaluated at a concrete provisioned
store, a successful join and a successful claim. -/
theorem claim_C1_witness :
    ({ p0C1 with wifi_ssid := "net" } : Prefs).claim_token ≠ "" ∧
    (storageLoadWifi { p0C1 with wifi_ssid := "net" }).isValid = true ∧
    ((setupBoot { p0C1 with wifi_ssid := "net" } true resC1).1.claim_token = "" ∧
      storageIsProvisioned
        (setupBoot { p0C1 with wifi_ssid := "net" } true resC1).1 = true) := by
  refine ⟨by decide, by decide, ?_, ?_⟩
  · exact (claim_C1_pending_claim_consumed _ true _ (by decide) (by decide)).1.1
  · exact (claim_C1_pending_claim_consumed _ true _ (by decide) (by decide)).2 rfl rfl

/-- C1 counterexample: a `/provision` POST with an empty (but present) ssid
is accepted, so the device reboots with a pending claim token and an
invalid WiFi record; at that boot `setup()` takes the invalid-credentials
path to provisioning and the pending-claim keys survive the boot sequence,
contradicting the claim that they are absent after every boot that starts
with a PendingClaim present. -/
theorem claim_C1_counterexample :
    handleProvision
        (.ok (.obj [("ssid", .str ""), ("password", .str "pw"),
          ("claimToken", .str "tok"), ("serverUrl", .str "https://srv")]))
        prefsDefault =
      (200, { p0C1 with wifi_pass := "pw" }) ∧
    ({ p0C1 with wifi_pass := "pw" } : Prefs).claim_token ≠ "" ∧
    (setupBoot { p0C1 with wifi_pass := "pw" } true resC1) =
      ({ p0C1 with wifi_pass := "pw" }, .provisioning) := by
  refine ⟨by decide, by decide, by decide⟩

/-- C2 (amended): the schemes the broker connect procedure recognizes are
`mqtt://` (default port 1883, unencrypted) and `mqtts://` (default port
8883, TLS), not the spec names `plain://` / `secure://`.  For the stored
address "mqtts://host:1884" it selects encrypted transport with the
explicit port 1884 overriding the scheme default, and for "host" with no
scheme it selects unencrypted transport and port 1883. -/
theorem claim_C2_broker_scheme_parsing :
    connectTarget (storageLoadMqtt { prefsDefault with mqtt_broker := "mqtts://host:1884" }) =
      some { useTLS := true, host := "host", port := 1884 } ∧
    connectTarget (storageLoadMqtt { prefsDefault with mqtt_broker := "host" }) =
      some { useTLS := false, host := "host", port := 1883 } := by
  refine ⟨by decide, by decide⟩

/-- C2 counterexample: the literal address "secure://host:1884" matches
neither recognized scheme, so the parse falls through to the no-scheme
branch, splits at the first colon (after "secure") and `toInt` on
"//host:1884" yields 0 — unencrypted transport, host "secure", port 0,
not encrypted transport on port 1884 as claimed. -/
theorem claim_C2_counterexample :
    (parseBrokerAddress "secure://host:1884").useTLS = false ∧
    (parseBrokerAddress "secure://host:1884").port = 0 ∧
    connectTarget (storageLoadMqtt { prefsDefault with mqtt_broker := "secure://host:1884" }) =
      some { useTLS := false, host := "secure", port := 0 } := by
  refine ⟨by decide, by decide, by decide⟩

/-- C4 (amended): an exchange that returns HTTP 200 whose body parses with
`success:false` yields `success == false`, and the error string is exactly
the response's structured `error` field converted to text — there is no
fallback to the HTTP status or the transport description on this branch,
so the error string is non-empty only when the structured field itself is
non-empty (which the counterexample shows is necessary). -/
theorem claim_C4_claim_error_string :
    ∀ (resp : HttpResponse) (doc : Json) (e : String),
      resp.code = 200 →
      resp.body = .ok doc →
      jsonAsBool (jsonGet doc "success") = false →
      jsonGet doc "error" = .str e →
      (claimProcessResponse resp).success = false ∧
      (claimProcessResponse resp).error = e ∧
      (e ≠ "" → (claimProcessResponse resp).error ≠ "") := by
  intro resp doc e hcode hbody hsucc herr
  obtain ⟨code, body, te⟩ := resp
  simp only at hcode hbody
  subst hcode
  subst hbody
  simp [claimProcessResponse, hsucc, herr, jsonAsString]

/-- C4 witness: the amended theorem evaluated at a 200 response carrying
`success:false` with a non-empty structured error. -/
theorem claim_C4_witness :
    respDenied.code = 200 ∧
    (claimProcessResponse respDenied).success = false ∧
    (claimProcessResponse respDenied).error = "bad token" := by
  refine ⟨rfl, ?_, ?_⟩
  · exact (claim_C4_claim_error_string respDenied _ "bad token" rfl rfl
      (by decide) rfl).1
  · exact (claim_C4_claim_error_string respDenied _ "bad token" rfl rfl
      (by decide) rfl).2.1

/-- C4 counterexample: HTTP 200 with body `{"success":false,"error":""}`
produces `success == false` but an empty error string — the claimed
fallback to the HTTP status never happens on the 200 branch, so the error
string is not always non-empty. -/
theorem claim_C4_counterexample :
    (claimProcessResponse respEmptyError).success = false ∧
    (claimProcessResponse respEmptyError).error = "" := by
  refine ⟨by decide, by decide⟩

/-- C5: a `/provision` POST whose parsed body lacks any of the four
required fields (the lookup converts to a null `const char*`, which covers
an absent key) answers HTTP 400 and returns the credential store exactly as
it was — no WiFi credentials and no pending-claim record are written. -/
theorem claim_C5_provision_missing_field :
    ∀ (doc : Json) (st : Prefs),
      (jsonLookupCStr doc "ssid" = none ∨
       jsonLookupCStr doc "password" = none ∨
       jsonLookupCStr doc "claimToken" = none ∨
       jsonLookupCStr doc "serverUrl" = none) →
      handleProvision (.ok doc) st = (400, st) := by
  intro doc st h
  cases h1 : jsonLookupCStr doc "ssid" <;>
    cases h2 : jsonLookupCStr doc "password" <;>
      cases h3 : jsonLookupCStr doc "claimToken" <;>
        cases h4 : jsonLookupCStr doc "serverUrl" <;>
          simp_all [handleProvision]

/-- C5 witness: a body missing the ssid field is rejected with 400 and the
default store is unchanged. -/
theorem claim_C5_witness :
    jsonLookupCStr (.obj [("password", .str "pw"), ("claimToken", .str "tok"),
      ("serverUrl", .str "https://srv")]) "ssid" = none ∧
    handleProvision (.ok (.obj [("password", .str "pw"), ("claimToken", .str "tok"),
      ("serverUrl", .str "https://srv")])) prefsDefault = (400, prefsDefault) :=
  ⟨by decide,
   claim_C5_provision_missing_field _ prefsDefault (Or.inl (by decide))⟩

/-- C6 (amended): every record returned by a credential-store load
satisfies the invariant (valid only if the broker address is non-empty),
and the record inside a successful ClaimResult satisfies it exactly when
the response carries a non-empty `data.mqtt.broker` string — `claimDevice`
marks the record valid unconditionally on `success:true`, so a response
without a broker field violates the invariant (the counterexample). -/
theorem claim_C6_broker_invariant :
    (∀ st : Prefs,
      (storageLoadMqtt st).isValid = true → (storageLoadMqtt st).broker ≠ "") ∧
    (∀ (resp : HttpResponse) (doc : Json) (b : String),
      resp.code = 200 →
      resp.body = .ok doc →
      jsonAsBool (jsonGet doc "success") = true →
      jsonGet (jsonGet (jsonGet doc "data") "mqtt") "broker" = .str b →
      b ≠ "" →
      (claimProcessResponse resp).mqtt.isValid = true ∧
      (claimProcessResponse resp).mqtt.broker ≠ "") := by
  constructor
  · intro st h
    by_cases hb : st.mqtt_broker = ""
    · simp [storageLoadMqtt, hb, mqttInvalid] at h
    · simp only [storageLoadMqtt, if_pos hb]
      exact truncN_ne_empty (by decide) hb
  · intro resp doc b hcode hbody hsucc hbroker hb
    obtain ⟨code, body, te⟩ := resp
    simp only at hcode hbody
    subst hcode
    subst hbody
    constructor
    · simp [claimProcessResponse, hsucc]
    · simp only [claimProcessResponse, hsucc]
      simp only [hbroker, jsonStrOr]
      exact truncN_ne_empty (by decide) hb

/-- C6 witness: the two parts evaluated at a concrete stored record and a
concrete successful claim response. -/
theorem claim_C6_witness :
    (storageLoadMqtt { prefsDefault with mqtt_broker := "mqtt://h" }).isValid = true ∧
    (storageLoadMqtt { prefsDefault with mqtt_broker := "mqtt://h" }).broker ≠ "" ∧
    (claimProcessResponse respWithBroker).mqtt.isValid = true ∧
    (claimProcessResponse respWithBroker).mqtt.broker ≠ "" := by
  refine ⟨by decide,
    claim_C6_broker_invariant.1 _ (by decide), ?_, ?_⟩
  · exact (claim_C6_broker_invariant.2 respWithBroker _ "mqtt://h" rfl rfl
      (by decide) rfl (by decide)).1
  · exact (claim_C6_broker_invariant.2 respWithBroker _ "mqtt://h" rfl rfl
      (by decide) rfl (by decide)).2

/-- C6 counterexample: a 200 response with `success:true` and no broker
field at all still yields a BrokerCredentials record with the validity
flag set and an empty broker address, violating the claimed invariant for
claim-produced records. -/
theorem claim_C6_counterexample :
    (claimProcessResponse respNoBroker).mqtt.isValid = true ∧
    (claimProcessResponse respNoBroker).mqtt.broker = "" := by
  refine ⟨by decide, by decide⟩

theorem loopReconnects_head_gap :
    ∀ (ticks : List LoopTick) (last x : Nat),
      (loopReconnects last ticks).head? = some x →
      MQTT_RECONNECT_DELAY_MS < x - last := by
  intro ticks
  induction ticks with
  | nil =>
    intro last x h
    simp [loopReconnects] at h
  | cons t ts ih =>
    intro last x h
    simp only [loopReconnects] at h
    split_ifs at h with h1 h2 h3 h4
    · exact ih last x h
    · exact ih last x h
    · simp only [List.head?_cons, Option.some.injEq] at h
      subst h
      calc MQTT_RECONNECT_DELAY_MS
          < (t.now - last) % 4294967296 := h4
        _ ≤ t.now - last := Nat.mod_le _ _
    · exact ih last x h
    · exact ih last x h

/-- C8: along every sequence of loop iterations, whatever the tick times
and the provisioning / WiFi / broker-link conditions at each tick, any two
consecutive calls of `connectToMQTT` made by the reconnect branch of
`loop()` are separated by at least `MQTT_RECONNECT_DELAY_MS` milliseconds
(the guard is strict, so the separation in fact exceeds the cooldown). -/
theorem claim_C8_reconnect_throttled :
    ∀ (last0 : Nat) (ticks : List LoopTick),
      List.Chain' (fun t1 t2 => MQTT_RECONNECT_DELAY_MS ≤ t2 - t1)
        (loopReconnects last0 ticks) := by
  intro last0 ticks
  induction ticks generalizing last0 with
  | nil => simp [loopReconnects]
  | cons t ts ih =>
    simp only [loopReconnects]
    split_ifs with h1 h2 h3 h4
    · exact ih last0
    · exact ih last0
    · rw [List.chain'_cons']
      refine ⟨?_, ih t.now⟩
      intro y hy
      exact le_of_lt (loopReconnects_head_gap ts t.now y hy)
    · exact ih last0
    · exact ih last0

/-- C9: a command with action "toggle-led" turns the LED on and
acknowledges with status "success" and `state.led == true` when
`params.state` is the boolean true, and falls back to false (LED off,
`state.led == false`, still "success") when `params.state` is absent. -/
theorem claim_C9_toggle_led :
    ∀ (command : Json) (led : Bool),
      jsonLookupCStr command "action" = some "toggle-led" →
      ((jsonGet (jsonGet command "params") "state" = Json.boolean true →
        (handleCommand command led).1 = true ∧
        (handleCommand command led).2.status = "success" ∧
        (handleCommand command led).2.led = true) ∧
       (jsonGet (jsonGet command "params") "state" = Json.null →
        (handleCommand command led).1 = false ∧
        (handleCommand command led).2.status = "success" ∧
        (handleCommand command led).2.led = false)) := by
  intro command led hact
  constructor
  · intro hstate
    simp [handleCommand, hact, hstate, jsonBoolOr]
  · intro hstate
    simp [handleCommand, hact, hstate, jsonBoolOr]

/-- C9 witness: the dispatch evaluated at a concrete toggle-led command
with `params.state = true` and at one with `params` empty. -/
theorem claim_C9_witness :
    jsonLookupCStr cmdToggleOn "action" = some "toggle-led" ∧
    (handleCommand cmdToggleOn false).1 = true ∧
    (handleCommand cmdToggleOn false).2.status = "success" ∧
    (handleCommand cmdToggleOn false).2.led = true := by
  refine ⟨rfl, ?_⟩
  exact (claim_C9_toggle_led cmdToggleOn false rfl).1 rfl

/-- C10: a message whose payload fails JSON parsing makes the subscription
callback return before dispatch — for every parser outcome that is an
error, the LED state is unchanged and no acknowledgement is produced. -/
theorem claim_C10_malformed_payload_ignored :
    ∀ (deserialize : String → Except String Json) (payload : String)
      (led : Bool) (e : String),
      deserialize payload = .error e →
      mqttCallback deserialize payload led = (led, none) := by
  intro d payload led e h
  simp [mqttCallback, h]

/-- C10 witness: a parser that rejects the payload leaves the state alone
and publishes nothing. -/
theorem claim_C10_witness :
    (fun _ : String => (Except.error "InvalidInput" : Except String Json)) "not json" =
      .error "InvalidInput" ∧
    mqttCallback (fun _ => .error "InvalidInput") "not json" true = (true, none) :=
  ⟨rfl, claim_C10_malformed_payload_ignored _ "not json" true "InvalidInput" rfl⟩

/-- C7 (amended): `claimDevice` posts to the URL built by appending
"devices/claim" to serverUrl, inserting a slash only when serverUrl does
not already end with one.  For every serverUrl that does not end in two or
more slashes this equals the specified normalization with exactly one
separating slash; a serverUrl ending in "//" keeps both slashes (the
counterexample), so the universal "exactly one separating slash" claim
fails only there. -/
theorem claim_C7_one_slash_url :
    ∀ s : String, endsTwoSlashes s = false → claimUrl s = specOneSlashUrl s := by
  intro s h
  obtain ⟨l⟩ := s
  cases hrev : l.reverse with
  | nil =>
    have hl : l = [] := by simpa using congrArg List.reverse hrev
    subst hl
    rfl
  | cons c rest =>
    have hl : l = rest.reverse ++ [c] := by simpa using congrArg List.reverse hrev
    by_cases hc : c = '/'
    · subst hc
      have hlast : l.getLast? = some '/' := by rw [hl]; simp
      cases hrest : rest with
      | nil =>
        have hl2 : l = ['/'] := by rw [hl, hrest]; rfl
        subst hl2
        rfl
      | cons d rs =>
        have hd : ¬ d = '/' := by
          intro hd
          rw [hrest, hd] at hrev
          simp [endsTwoSlashes, hrev] at h
        have hlhs : claimUrl (String.mk l) = String.mk l ++ "devices/claim" := by
          simp [claimUrl, hlast]
        have hrhs : specOneSlashUrl (String.mk l) =
            String.mk ((d :: rs).reverse) ++ "/devices/claim" := by
          simp only [specOneSlashUrl]
          rw [hrev, hrest]
          simp [List.dropWhile_cons, hd]
        rw [hlhs, hrhs]
        apply String.ext
        rw [String.data_append, String.data_append]
        rw [show (String.mk ((d :: rs).reverse)).data = (d :: rs).reverse from rfl]
        rw [show (String.mk l).data = l from rfl]
        rw [hl, hrest]
        rw [show ("/devices/claim" : String).data =
          '/' :: ("devices/claim" : String).data from rfl]
        simp
    · have hlast : l.getLast? = some c := by rw [hl]; simp
      have hlhs : claimUrl (String.mk l) = String.mk l ++ "/devices/claim" := by
        simp [claimUrl, hlast, hc]
      have hrhs : specOneSlashUrl (String.mk l) = String.mk l ++ "/devices/claim" := by
        simp only [specOneSlashUrl]
        rw [hrev]
        rw [List.dropWhile_cons]
        simp only [hc, decide_eq_true_eq, if_false]
        rw [← hrev, List.reverse_reverse]
      rw [hlhs, hrhs]

/-- C7 witness: the normalization evaluated at a serverUrl without a
trailing slash and at one with a single trailing slash. -/
theorem claim_C7_witness :
    endsTwoSlashes "https://api.example.com/api/v1" = false ∧
    claimUrl "https://api.example.com/api/v1" =
      specOneSlashUrl "https://api.example.com/api/v1" ∧
    endsTwoSlashes "https://api.example.com/api/v1/" = false ∧
    claimUrl "https://api.example.com/api/v1/" =
      specOneSlashUrl "https://api.example.com/api/v1/" :=
  ⟨by decide,
   claim_C7_one_slash_url "https://api.example.com/api/v1" (by decide),
   by decide,
   claim_C7_one_slash_url "https://api.example.com/api/v1/" (by decide)⟩

/-- C7 counterexample: a serverUrl ending in two slashes keeps both of
them, so the URL sent does not contain exactly one separating slash
between serverUrl and the path. -/
theorem claim_C7_counterexample :
    claimUrl "https://api.example.com/v1//" = "https://api.example.com/v1//devices/claim" ∧
    claimUrl "https://api.example.com/v1//" ≠ specOneSlashUrl "https://api.example.com/v1//" := by
  refine ⟨by decide, by decide⟩
